import Mathlib

/-!
# create-kii-dapp: the scaffolding script `bin/index.mjs`

A shallow embedding of the script.  JavaScript values that may be `undefined`
are `Option String`; the observable behaviour of a run is the ordered list of
effects it performs (console output, spinner updates, shell commands, the
prompt) together with the way the run ends: normally, by an exception, or by
`process.exit(code)`.

The environment is explicit: the outcome of every dynamic `import`, the
argument vector, the answers typed at the prompt, and the outcome of every
shell command (indexed by how many commands ran before it).
-/

namespace CreateKiiDapp

/-! ## Values, effects and the execution monad -/

/-- An error object caught by a `catch` clause, identified by its message. -/
abbrev JSError := String

/-- Colours of the `chalk` formatter that the script uses. -/
inductive Color where
  | green
  | yellow
  | cyan
  deriving DecidableEq, Repr

/-- One argument handed to `console.log`, `console.error` or `ora`. -/
inductive Arg where
  /-- A plain string. -/
  | str (s : String)
  /-- The value of `chalk.<c>(s)`. -/
  | chalk (c : Color) (s : String)
  /-- A caught error object. -/
  | caught (e : JSError)
  deriving DecidableEq, Repr

/-- The text carried by an argument, without its colour. -/
def Arg.text : Arg → String
  | .str s => s
  | .chalk _ s => s
  | .caught e => e

/-- One entry of the `questions` array given to `inquirer.prompt`. -/
structure Question where
  type : String
  name : String
  message : String
  choices : Option (List String)
  deriving DecidableEq, Repr

/-- The object that `inquirer.prompt` resolves with. -/
structure Answers where
  projectType : String
  authorName : String
  deriving DecidableEq, Repr

/-- Observable effects of the script, in the order they happen. -/
inductive Effect where
  | consoleLog (args : List Arg)
  | consoleError (args : List Arg)
  | spinnerStart (description : Arg)
  | spinnerSucceed
  | spinnerFail
  | shellCommand (command : String)
  | askQuestions (questions : List Question)
  deriving DecidableEq, Repr

/-- How a computation ends. -/
inductive Outcome (α : Type) where
  /-- Normal completion with a value. -/
  | value (a : α)
  /-- An exception is propagating. -/
  | thrown (e : JSError)
  /-- The process was ended by `process.exit(code)`. -/
  | exited (code : Int)
  deriving DecidableEq, Repr

/-- Mutable state of a run: the effects so far and the number of shell
commands started so far. -/
structure St where
  trace : List Effect
  execs : Nat
  deriving DecidableEq, Repr

/-- Computations of the script. -/
def JS (α : Type) : Type := St → Outcome α × St

/-- Sequencing: an exception or a process exit skips the continuation. -/
def JS.bind {α β : Type} (m : JS α) (f : α → JS β) : JS β := fun s =>
  match m s with
  | (.value a, s1) => f a s1
  | (.thrown e, s1) => (.thrown e, s1)
  | (.exited c, s1) => (.exited c, s1)

instance : Monad JS where
  pure a := fun s => (.value a, s)
  bind := JS.bind

/-- Record one effect. -/
def emit (e : Effect) : JS Unit := fun s =>
  (.value (), { s with trace := s.trace ++ [e] })

/-- The call `process.exit(code)`: nothing after it runs. -/
def processExit {α : Type} (code : Int) : JS α := fun s => (.exited code, s)

/-- The statement `try { body } catch (e) { handler e }`. -/
def tryCatch {α : Type} (body : JS α) (handler : JSError → JS α) : JS α := fun s =>
  match body s with
  | (.thrown e, s1) => handler e s1
  | r => r

/-- The oracle for the operating-system shell: `shell n command` is the
outcome of `command` when it is the `n`-th command (from 0) started by this
run; `none` is a zero exit status, `some e` makes `execSync` throw `e`. -/
abbrev Shell := Nat → String → Option JSError

/-- The call `execSync(command, { stdio: "inherit" })`. -/
def execSync (shell : Shell) (command : String) : JS Unit := fun s =>
  let s1 : St := { trace := s.trace ++ [.shellCommand command], execs := s.execs + 1 }
  match shell s.execs command with
  | none => (.value (), s1)
  | some e => (.thrown e, s1)

/-- A template-literal slot `${v}`: `undefined` prints as the word. -/
def tmpl : Option String → String
  | some s => s
  | none => "undefined"

/-- JavaScript truthiness of a value that is a string or `undefined`. -/
def truthy : Option String → Bool
  | some s => s != ""
  | none => false

/-- The environment of one invocation. -/
structure World where
  /-- Outcome of `import(m)` for each module name: `none` when it loads. -/
  importError : String → Option JSError
  /-- The array `process.argv`. -/
  argv : List String
  /-- What the user answers at the prompt. -/
  answers : Answers
  /-- Outcome of every shell command. -/
  shell : Shell

/-- The result of a whole run. -/
structure Run where
  trace : List Effect
  outcome : Outcome Unit
  deriving DecidableEq, Repr

/-- Run a computation from the initial state. -/
def JS.run (m : JS Unit) : Run :=
  let r := m { trace := [], execs := 0 }
  { trace := r.2.trace, outcome := r.1 }

/-- The exit code of the process: the argument of `process.exit`, and 0 when
the script runs to its end. -/
def Run.exitCode (r : Run) : Int :=
  match r.outcome with
  | .exited c => c
  | .value _ => 0
  | .thrown _ => 1

/-! ## The script -/

/-- `importModule` (lines 6-13): load a module, or report and exit with 1. -/
def importModule (importError : String → Option JSError) (mod : String) : JS Unit :=
  tryCatch
    (fun s => match importError mod with
      | none => (.value (), s)
      | some e => (.thrown e, s))
    (fun error => do
      emit (.consoleError [.str ("Error importing module " ++ mod ++ ":"), .caught error])
      processExit 1)

/-- `runCommand` (lines 20-31). -/
def runCommand (shell : Shell) (command : Option String) (description : Arg) : JS Bool := do
  emit (.spinnerStart description)
  let returned ← tryCatch
    (do
      execSync shell (tmpl command)
      emit .spinnerSucceed
      pure none)
    (fun e => do
      emit .spinnerFail
      emit (.consoleError [.str ("Failed to execute " ++ tmpl command), .caught e])
      pure (some false))
  match returned with
  | some b => pure b
  | none => pure true

/-- The usage message of line 36. -/
def usageMessage : String :=
  "Please provide a repository name as the second argument like > npx create-kii-dapp my-dapp"

/-- The `questions` array (lines 41-53). -/
def questions : List Question :=
  [ { type := "list", name := "projectType", message := "Please select the project type:",
      choices := some ["hardhat", "foundry"] },
    { type := "input", name := "authorName", message := "Enter your name (optional):",
      choices := none } ]

/-- The three planned command variables (lines 58-60); each starts `undefined`. -/
structure Plan where
  gitCheckoutCommand : Option String
  installFrontendDepsCommand : Option String
  installBackendDepsCommand : Option String
  deriving DecidableEq, Repr

/-- The command planner (lines 58-70). -/
def plan (repoName projectType : String) : Plan :=
  if projectType = "hardhat" then
    { gitCheckoutCommand :=
        some ("git clone --depth 1 https://github.com/AsharibAli/create-kii-dapp-hardhat " ++ repoName),
      installFrontendDepsCommand := some ("cd " ++ repoName ++ " && cd frontend && npm install"),
      installBackendDepsCommand := some ("cd " ++ repoName ++ " && cd backend && npm install") }
  else if projectType = "foundry" then
    { gitCheckoutCommand :=
        some ("git clone --depth 1 https://github.com/AsharibAli/create-kii-dapp-foundry " ++ repoName),
      installFrontendDepsCommand := some ("cd " ++ repoName ++ " && cd frontend && npm install"),
      installBackendDepsCommand := some ("cd " ++ repoName ++ " && cd backend") }
  else
    { gitCheckoutCommand := none,
      installFrontendDepsCommand := none,
      installBackendDepsCommand := none }

/-- The toolchain-specific instructions (lines 105-139). -/
def toolchainBlock (repoName projectType : String) : List Effect :=
  if projectType = "hardhat" then
    [ .consoleLog [.chalk .cyan "\nTo set up the backend, run the following commands:"],
      .consoleLog [.chalk .cyan ("cd " ++ repoName ++ " && cd backend")],
      .consoleLog [.chalk .yellow
        "\n⚠️ Please create a .env file in the backend directory and paste your Metamask private key:"],
      .consoleLog [.chalk .cyan "ACCOUNT_PRIVATE_KEY=", .str "<YOUR_KEY>"],
      .consoleLog [.chalk .cyan "\t npx hardhat compile"],
      .consoleLog [.chalk .cyan "\t npx hardhat test"],
      .consoleLog [.chalk .cyan "\t npx hardhat run scripts/deploy.ts --network kiichain"] ]
  else if projectType = "foundry" then
    [ .consoleLog [.chalk .cyan "\nTo set up the backend, run the following commands:"],
      .consoleLog [.chalk .cyan ("cd " ++ repoName ++ " && cd backend")],
      .consoleLog [.chalk .yellow
        "\n⚠️ Please create a .env file in the backend directory and paste your Metamask private key:"],
      .consoleLog [.chalk .cyan "ACCOUNT_PRIVATE_KEY=", .str "<YOUR_KEY>"],
      .consoleLog [.chalk .cyan "\t forge compile"],
      .consoleLog [.chalk .cyan "\t forge test"],
      .consoleLog [.chalk .cyan
        "\t forge script script/DeployGreeter.s.sol --broadcast --rpc-url https://a.sentry.testnet.kiivalidator.com:8645/ --gas-limit 30000000 --with-gas-price 5gwei --skip-simulation"] ]
  else []

/-- The frontend instructions (lines 141-147). -/
def frontendBlock (repoName : String) : List Effect :=
  [ .consoleLog [.chalk .cyan
      "\nTo start the frontend development server, run the following commands:"],
    .consoleLog [.chalk .cyan ("cd " ++ repoName ++ " && cd frontend")],
    .consoleLog [.chalk .cyan "npm run dev"] ]

/-- The success banner with the optional thank-you line (lines 96-103). -/
def banner (authorName : String) : List Effect :=
  [ .consoleLog [.chalk .yellow "\n-----------------------"],
    .consoleLog [.chalk .green "\nSuccess! 🎉"] ]
  ++ (if truthy (some authorName) then
        [ .consoleLog [.chalk .green
            ("Thank you, " ++ authorName ++ ", for using create-kii-dapp 🙌")] ]
      else [])
  ++ [ .consoleLog [.str "\nFollow the Quickstart guide in README.md"] ]

/-- Everything the completion reporter prints (lines 96-150). -/
def completionReport (repoName projectType authorName : String) : List Effect :=
  banner authorName
  ++ toolchainBlock repoName projectType
  ++ frontendBlock repoName
  ++ [ .consoleLog [.str "\nHappy Building on KiiChain!"],
       .consoleLog [.chalk .yellow "\n-----------------------"] ]

/-- Record a list of effects in order. -/
def emitAll : List Effect → JS Unit
  | [] => pure ()
  | e :: es => do
    emit e
    emitAll es

/-- The callback of `inquirer.prompt(questions).then` (lines 55-151). -/
def onAnswers (shell : Shell) (repoName : String) (answers : Answers) : JS Unit := do
  let projectType := answers.projectType
  let authorName := answers.authorName
  let p := plan repoName projectType
  if !(← runCommand shell p.gitCheckoutCommand (.chalk .green "Cloning the repository")) then
    processExit (-1)
  if !(← runCommand shell p.installFrontendDepsCommand
      (.chalk .green ("Installing frontend dependencies for " ++ repoName))) then
    processExit (-1)
  if !(← runCommand shell p.installBackendDepsCommand
      (.chalk .green ("Installing backend dependencies for " ++ repoName))) then
    processExit (-1)
  emitAll (completionReport repoName projectType authorName)

/-- The whole script (lines 15-152). -/
def main (w : World) : JS Unit := do
  importModule w.importError "chalk"
  importModule w.importError "inquirer"
  importModule w.importError "ora"
  let repoName := w.argv[2]?
  if !truthy repoName then
    emit (.consoleError [.str usageMessage])
    processExit (-1)
  emit (.askQuestions questions)
  onAnswers w.shell (tmpl repoName) w.answers

/-! ## Vocabulary for stating properties of a run -/

/-- Effects of a shell step that succeeded. -/
def stepOk (description : Arg) (command : String) : List Effect :=
  [.spinnerStart description, .shellCommand command, .spinnerSucceed]

/-- Effects of a shell step that failed with `e`. -/
def stepFailed (description : Arg) (command : String) (e : JSError) : List Effect :=
  [.spinnerStart description, .shellCommand command, .spinnerFail,
   .consoleError [.str ("Failed to execute " ++ command), .caught e]]

/-- The shell commands a trace started, in order. -/
def executed : List Effect → List String
  | [] => []
  | .shellCommand c :: es => c :: executed es
  | _ :: es => executed es

/-- The `console.log` calls of a trace, in order. -/
def logged : List Effect → List (List Arg)
  | [] => []
  | .consoleLog args :: es => args :: logged es
  | _ :: es => logged es

/-- Of a list of commands paired with whether each succeeds, the commands up
to and including the first one that fails (all of them when none fails). -/
def throughFirstFailure : List (String × Bool) → List String
  | [] => []
  | (c, true) :: rest => c :: throughFirstFailure rest
  | (c, false) :: _ => [c]

/-- The three helper modules load. -/
def World.modulesLoad (w : World) : Prop :=
  w.importError "chalk" = none ∧ w.importError "inquirer" = none ∧ w.importError "ora" = none

instance (w : World) : Decidable w.modulesLoad := by
  unfold World.modulesLoad
  exact inferInstance

/-- A terminal in which every shell command exits with status zero. -/
def shellAllOk : Shell := fun _ _ => none

/-- A terminal in which the `n`-th command fails and every other succeeds. -/
def shellFailingAt (n : Nat) : Shell := fun i _ => if i = n then some "exit status 1" else none

/-- Sample invocation `create-kii-dapp my-dapp` answered `hardhat`, no name. -/
def sampleWorld : World :=
  { importError := fun _ => none,
    argv := ["node", "create-kii-dapp", "my-dapp"],
    answers := { projectType := "hardhat", authorName := "" },
    shell := shellAllOk }

/-- Sample invocation without the repository name. -/
def bareWorld : World :=
  { importError := fun _ => none,
    argv := ["node", "create-kii-dapp"],
    answers := { projectType := "hardhat", authorName := "" },
    shell := shellAllOk }

/-- Sample invocation without the repository name in an installation where
the `inquirer` package cannot be loaded. -/
def brokenWorld : World :=
  { importError := fun m => if m = "inquirer" then some "Cannot find package" else none,
    argv := ["node", "create-kii-dapp"],
    answers := { projectType := "hardhat", authorName := "" },
    shell := shellAllOk }

/-! ## Evaluation lemmas -/

theorem pure_apply {α : Type} (a : α) (s : St) : (pure a : JS α) s = (.value a, s) := rfl

theorem bind_apply {α β : Type} (m : JS α) (f : α → JS β) (s : St) :
    (m >>= f) s = JS.bind m f s := rfl

theorem runCommand_apply (shell : Shell) (command : Option String) (description : Arg)
    (s : St) :
    runCommand shell command description s =
      match shell s.execs (tmpl command) with
      | none => (.value true,
          { trace := s.trace ++ stepOk description (tmpl command), execs := s.execs + 1 })
      | some e => (.value false,
          { trace := s.trace ++ stepFailed description (tmpl command) e,
            execs := s.execs + 1 }) := by
  simp only [runCommand, bind_apply, JS.bind, emit, tryCatch, execSync, pure_apply, stepOk,
    stepFailed]
  cases h : shell s.execs (tmpl command) <;> simp [pure_apply]

theorem emitAll_apply (es : List Effect) (s : St) :
    emitAll es s = (.value (), { s with trace := s.trace ++ es }) := by
  induction es generalizing s with
  | nil => simp [emitAll, pure_apply]
  | cons e es ih => simp [emitAll, bind_apply, JS.bind, emit, ih]

theorem onAnswers_apply (shell : Shell) (repoName : String) (answers : Answers) (s : St) :
    onAnswers shell repoName answers s =
      let p := plan repoName answers.projectType
      let c1 := tmpl p.gitCheckoutCommand
      let c2 := tmpl p.installFrontendDepsCommand
      let c3 := tmpl p.installBackendDepsCommand
      let d1 := Arg.chalk .green "Cloning the repository"
      let d2 := Arg.chalk .green ("Installing frontend dependencies for " ++ repoName)
      let d3 := Arg.chalk .green ("Installing backend dependencies for " ++ repoName)
      match shell s.execs c1 with
      | some e => (.exited (-1),
          { trace := s.trace ++ stepFailed d1 c1 e, execs := s.execs + 1 })
      | none =>
        match shell (s.execs + 1) c2 with
        | some e => (.exited (-1),
            { trace := s.trace ++ (stepOk d1 c1 ++ stepFailed d2 c2 e), execs := s.execs + 2 })
        | none =>
          match shell (s.execs + 2) c3 with
          | some e => (.exited (-1),
              { trace := s.trace ++ (stepOk d1 c1 ++ stepOk d2 c2 ++ stepFailed d3 c3 e),
                execs := s.execs + 3 })
          | none => (.value (),
              { trace := s.trace ++ (stepOk d1 c1 ++ stepOk d2 c2 ++ stepOk d3 c3 ++
                  completionReport repoName answers.projectType answers.authorName),
                execs := s.execs + 3 }) := by
  simp only [onAnswers, bind_apply, JS.bind, runCommand_apply]
  cases h1 : shell s.execs (tmpl (plan repoName answers.projectType).gitCheckoutCommand)
  · cases h2 : shell (s.execs + 1)
        (tmpl (plan repoName answers.projectType).installFrontendDepsCommand)
    · cases h3 : shell (s.execs + 2)
          (tmpl (plan repoName answers.projectType).installBackendDepsCommand)
      · simp [h1, h2, h3, bind_apply, pure_apply, emitAll_apply, processExit, JS.bind,
          runCommand_apply]
      · simp [h1, h2, h3, bind_apply, pure_apply, emitAll_apply, processExit, JS.bind,
          runCommand_apply]
    · simp [h1, h2, bind_apply, pure_apply, emitAll_apply, processExit, JS.bind,
        runCommand_apply]
  · simp [h1, bind_apply, pure_apply, emitAll_apply, processExit, JS.bind, runCommand_apply]

theorem importModule_apply (importError : String → Option JSError) (mod : String) (s : St) :
    importModule importError mod s =
      match importError mod with
      | none => (.value (), s)
      | some e => (.exited 1,
          { s with trace := s.trace ++
              [.consoleError [.str ("Error importing module " ++ mod ++ ":"), .caught e]] }) := by
  cases h : importError mod <;>
    simp [importModule, tryCatch, h, bind_apply, JS.bind, emit, processExit]

theorem executed_append (xs ys : List Effect) :
    executed (xs ++ ys) = executed xs ++ executed ys := by
  induction xs with
  | nil => rfl
  | cons x xs ih => cases x <;> simp [executed, ih]

theorem logged_append (xs ys : List Effect) :
    logged (xs ++ ys) = logged xs ++ logged ys := by
  induction xs with
  | nil => rfl
  | cons x xs ih => cases x <;> simp [logged, ih]

theorem mem_logged (args : List Arg) (es : List Effect) :
    args ∈ logged es ↔ Effect.consoleLog args ∈ es := by
  induction es with
  | nil => simp [logged]
  | cons x xs ih => cases x <;> simp [logged, ih]

theorem mem_executed (c : String) (es : List Effect) :
    c ∈ executed es ↔ Effect.shellCommand c ∈ es := by
  induction es with
  | nil => simp [executed]
  | cons x xs ih => cases x <;> simp [executed, ih]

theorem executed_completionReport (repoName projectType authorName : String) :
    executed (completionReport repoName projectType authorName) = [] := by
  simp only [completionReport, banner, toolchainBlock, frontendBlock, executed_append]
  split_ifs <;> simp [executed]

/-- The trace and outcome of the callback, by which step fails first. -/
theorem onAnswers_run (shell : Shell) (repoName : String) (answers : Answers) :
    (onAnswers shell repoName answers).run =
      let p := plan repoName answers.projectType
      let c1 := tmpl p.gitCheckoutCommand
      let c2 := tmpl p.installFrontendDepsCommand
      let c3 := tmpl p.installBackendDepsCommand
      let d1 := Arg.chalk .green "Cloning the repository"
      let d2 := Arg.chalk .green ("Installing frontend dependencies for " ++ repoName)
      let d3 := Arg.chalk .green ("Installing backend dependencies for " ++ repoName)
      match shell 0 c1 with
      | some e => { trace := stepFailed d1 c1 e, outcome := .exited (-1) }
      | none =>
        match shell 1 c2 with
        | some e => { trace := stepOk d1 c1 ++ stepFailed d2 c2 e, outcome := .exited (-1) }
        | none =>
          match shell 2 c3 with
          | some e =>
            { trace := stepOk d1 c1 ++ stepOk d2 c2 ++ stepFailed d3 c3 e,
              outcome := .exited (-1) }
          | none =>
            { trace := stepOk d1 c1 ++ stepOk d2 c2 ++ stepOk d3 c3 ++
                completionReport repoName answers.projectType answers.authorName,
              outcome := .value () } := by
  simp only [JS.run, onAnswers_apply]
  cases h1 : shell 0 (tmpl (plan repoName answers.projectType).gitCheckoutCommand)
  · cases h2 : shell 1 (tmpl (plan repoName answers.projectType).installFrontendDepsCommand)
    · cases h3 : shell 2 (tmpl (plan repoName answers.projectType).installBackendDepsCommand)
      · simp [h1, h2, h3]
      · simp [h1, h2, h3]
    · simp [h1, h2]
  · simp [h1]

/-- With the modules loaded and a non-empty first argument, the script asks its
questions and continues with the callback. -/
theorem main_run_of_repoName (w : World) (repoName : String) (hl : w.modulesLoad)
    (hr : w.argv[2]? = some repoName) (hne : repoName ≠ "") :
    (main w).run =
      { trace := .askQuestions questions :: (onAnswers w.shell repoName w.answers).run.trace,
        outcome := (onAnswers w.shell repoName w.answers).run.outcome } := by
  obtain ⟨hc, hi, ho⟩ := hl
  have ht : truthy (some repoName) = true := by simp [truthy, hne]
  have htm : tmpl (some repoName) = repoName := rfl
  simp [JS.run, main, bind_apply, JS.bind, importModule_apply, hc, hi, ho, hr, ht, htm,
    pure_apply, emit, onAnswers_apply]
  cases h1 : w.shell 0 (tmpl (plan repoName w.answers.projectType).gitCheckoutCommand)
  · cases h2 : w.shell 1
        (tmpl (plan repoName w.answers.projectType).installFrontendDepsCommand)
    · cases h3 : w.shell 2
          (tmpl (plan repoName w.answers.projectType).installBackendDepsCommand)
      · simp [h1, h2, h3]
      · simp [h1, h2, h3]
    · simp [h1, h2]
  · simp [h1]

/-! ## The command planner -/

/-- C1: for every `repoName`, the planner on `hardhat` yields exactly the
shallow clone of the hardhat template into `repoName`, the frontend install and
the backend install, all three defined. -/
theorem plan_hardhat (repoName : String) :
    plan repoName "hardhat" =
      { gitCheckoutCommand := some
          ("git clone --depth 1 https://github.com/AsharibAli/create-kii-dapp-hardhat "
            ++ repoName),
        installFrontendDepsCommand := some ("cd " ++ repoName ++ " && cd frontend && npm install"),
        installBackendDepsCommand := some ("cd " ++ repoName ++ " && cd backend && npm install") } := by
  simp [plan]

/-- The text `npm install` occurs in `cd <repoName> && cd backend` only where
it occurs in `repoName` itself. -/
theorem npm_install_in_cd_backend (repoName : String) :
    "npm install".data <:+: ("cd " ++ repoName ++ " && cd backend").data ↔
      "npm install".data <:+: repoName.data := by
  have hb : ∀ l : List Char,
      "npm install".data.reverse <:+: " && cd backend".data.reverse ++ l ↔
        "npm install".data.reverse <:+: l := by
    intro l
    simp [List.infix_cons_iff]
  rw [String.data_append, String.data_append]
  constructor
  · intro h
    have h1 : "npm install".data <:+: repoName.data ++ " && cd backend".data := by
      simpa [List.infix_cons_iff] using h
    rw [← List.reverse_infix, List.reverse_append, hb, List.reverse_infix] at h1
    exact h1
  · intro h
    exact List.IsInfix.trans h ⟨"cd ".data, " && cd backend".data, rfl⟩

/-- C2: for every `repoName`, the planner on `foundry` yields the shallow clone
of the foundry template (a different command from the hardhat clone), the same
frontend install as hardhat, and the backend command `cd repoName && cd backend`,
which is the hardhat backend command without its trailing ` && npm install`,
does not end in `npm install`, and contains the text `npm install` nowhere
outside `repoName`. -/
theorem plan_foundry (repoName : String) :
    plan repoName "foundry" =
      { gitCheckoutCommand := some
          ("git clone --depth 1 https://github.com/AsharibAli/create-kii-dapp-foundry "
            ++ repoName),
        installFrontendDepsCommand := some ("cd " ++ repoName ++ " && cd frontend && npm install"),
        installBackendDepsCommand := some ("cd " ++ repoName ++ " && cd backend") } ∧
    (plan repoName "foundry").gitCheckoutCommand ≠ (plan repoName "hardhat").gitCheckoutCommand ∧
    (plan repoName "foundry").installFrontendDepsCommand =
      (plan repoName "hardhat").installFrontendDepsCommand ∧
    tmpl (plan repoName "hardhat").installBackendDepsCommand =
      tmpl (plan repoName "foundry").installBackendDepsCommand ++ " && npm install" ∧
    ¬ ("npm install".data <:+ (tmpl (plan repoName "foundry").installBackendDepsCommand).data) ∧
    ("npm install".data <:+: (tmpl (plan repoName "foundry").installBackendDepsCommand).data →
      "npm install".data <:+: repoName.data) := by
  refine ⟨by simp [plan], ?_, by simp [plan], by simp [plan, tmpl, String.append_assoc], ?_,
    ?_⟩
  rotate_right
  · intro h
    simp only [plan, if_true, show ¬ ("foundry" = "hardhat") by decide, if_false, tmpl] at h
    exact (npm_install_in_cd_backend repoName).1 h
  · intro h
    simp only [plan, if_true, show ¬ ("foundry" = "hardhat") by decide, if_false,
      Option.some.injEq] at h
    have h2 := congrArg String.data h
    simp only [String.data_append, List.append_cancel_right_eq] at h2
    revert h2
    decide
  · intro h
    simp only [plan, if_true, show ¬ ("foundry" = "hardhat") by decide, if_false, tmpl] at h
    have h3 : " && cd backend".data <:+ ("cd " ++ repoName ++ " && cd backend").data := by
      rw [String.data_append]
      exact List.suffix_append _ _
    have h4 := List.suffix_of_suffix_length_le h h3 (by decide)
    revert h4
    decide

/-- C3 fails on the code: for the project type `truffle` nothing is reported
about the project type; the three commands stay undefined, and the runner is
handed the undefined clone command, which it starts as the shell command
`undefined` (whose failure is the only error printed). -/
theorem unknown_projectType_counterexample :
    plan "my-dapp" "truffle" =
      { gitCheckoutCommand := none, installFrontendDepsCommand := none,
        installBackendDepsCommand := none } ∧
    (onAnswers (shellFailingAt 0) "my-dapp" { projectType := "truffle", authorName := "" }).run =
      { trace :=
          [ .spinnerStart (.chalk .green "Cloning the repository"),
            .shellCommand "undefined",
            .spinnerFail,
            .consoleError [.str "Failed to execute undefined", .caught "exit status 1"] ],
        outcome := .exited (-1) } := by
  have hp : plan "my-dapp" "truffle" =
      { gitCheckoutCommand := none, installFrontendDepsCommand := none,
        installBackendDepsCommand := none } := by decide
  refine ⟨hp, ?_⟩
  simp only [onAnswers_run, hp, tmpl, shellFailingAt, if_true, stepFailed]
  rfl

/-- C3 as amended: for every project type other than `hardhat` and `foundry`
the planner raises nothing and leaves all three commands undefined, and the run
begins by handing the undefined clone command to the runner, which starts the
shell command `undefined`. -/
theorem unknown_projectType_undefined (shell : Shell) (repoName projectType authorName : String)
    (hh : projectType ≠ "hardhat") (hf : projectType ≠ "foundry") :
    plan repoName projectType =
      { gitCheckoutCommand := none, installFrontendDepsCommand := none,
        installBackendDepsCommand := none } ∧
    ∃ rest,
      (onAnswers shell repoName
        { projectType := projectType, authorName := authorName }).run.trace =
        [ .spinnerStart (.chalk .green "Cloning the repository"), .shellCommand "undefined" ]
          ++ rest := by
  have hp : plan repoName projectType =
      { gitCheckoutCommand := none, installFrontendDepsCommand := none,
        installBackendDepsCommand := none } := by simp [plan, hh, hf]
  refine ⟨hp, ?_⟩
  simp only [onAnswers_run, hp, tmpl]
  cases shell 0 "undefined" <;> cases shell 1 "undefined" <;> cases shell 2 "undefined" <;>
    simp [stepOk, stepFailed]

theorem unknown_projectType_undefined_witness :
    "truffle" ≠ "hardhat" ∧ "truffle" ≠ "foundry" ∧
    plan "my-dapp" "truffle" =
      { gitCheckoutCommand := none, installFrontendDepsCommand := none,
        installBackendDepsCommand := none } :=
  ⟨by decide, by decide,
    (unknown_projectType_undefined shellAllOk "my-dapp" "truffle" "" (by decide) (by decide)).1⟩

/-! ## The argument check -/

/-- C4 fails on the code: with the first positional argument missing and the
`inquirer` module failing to load, the run writes the import error, not the
usage message, and ends in `process.exit(1)`, not `process.exit(-1)`. -/
theorem missing_repoName_counterexample :
    brokenWorld.argv[2]? = none ∧
    (main brokenWorld).run =
      { trace := [.consoleError
          [.str "Error importing module inquirer:", .caught "Cannot find package"]],
        outcome := .exited 1 } ∧
    Effect.consoleError [.str usageMessage] ∉ (main brokenWorld).run.trace ∧
    (main brokenWorld).run.exitCode ≠ -1 := by
  have hc : brokenWorld.importError "chalk" = none := by decide
  have hi : brokenWorld.importError "inquirer" = some "Cannot find package" := by decide
  have hrun : (main brokenWorld).run =
      { trace := [.consoleError
          [.str "Error importing module inquirer:", .caught "Cannot find package"]],
        outcome := .exited 1 } := by
    simp only [JS.run, main, bind_apply, JS.bind, importModule_apply, hc, hi]
    rfl
  refine ⟨by decide, hrun, ?_, ?_⟩
  · rw [hrun]
    decide
  · rw [hrun]
    decide

/-- C4 as amended: when the first positional argument is missing, no prompt is
shown, no shell command is started, nothing is printed with `console.log`, an
error is written and the exit code is not zero; with the three helper modules
loaded the run is exactly the usage message on standard error followed by
`process.exit(-1)`, and with one of them failing to load the run ends in
`process.exit(1)` without the usage message. -/
theorem missing_repoName_exits (w : World) (h : w.argv[2]? = none) :
    (∀ q, Effect.askQuestions q ∉ (main w).run.trace) ∧
    (∀ c, Effect.shellCommand c ∉ (main w).run.trace) ∧
    (∀ args, Effect.consoleLog args ∉ (main w).run.trace) ∧
    (∃ args, Effect.consoleError args ∈ (main w).run.trace) ∧
    (main w).run.exitCode ≠ 0 ∧
    (w.modulesLoad →
      (main w).run =
        { trace := [.consoleError [.str usageMessage]], outcome := .exited (-1) } ∧
      (main w).run.exitCode = -1) ∧
    (¬ w.modulesLoad →
      (main w).run.outcome = .exited 1 ∧
      Effect.consoleError [.str usageMessage] ∉ (main w).run.trace) := by
  cases hc : w.importError "chalk" <;> cases hi : w.importError "inquirer" <;>
    cases ho : w.importError "ora" <;>
    simp [JS.run, main, bind_apply, JS.bind, importModule_apply, hc, hi, ho, h, truthy,
      pure_apply, emit, processExit, Run.exitCode, World.modulesLoad]

theorem missing_repoName_exits_witness :
    bareWorld.argv[2]? = none ∧
    (main bareWorld).run =
      { trace := [.consoleError [.str usageMessage]], outcome := .exited (-1) } :=
  ⟨by decide, ((missing_repoName_exits bareWorld (by decide)).2.2.2.2.2.1 (by decide)).1⟩

/-! ## The command runner -/

/-- C7: for every command and description, `runCommand` completes with a
boolean (it neither throws nor exits); the boolean is `true` exactly when the
shell command succeeds and `false` exactly when it fails, and in that case the
spinner is failed and `Failed to execute <command>` is logged with the error. -/
theorem runCommand_returns_boolean (shell : Shell) (command : String) (description : Arg)
    (s : St) :
    ∃ b s1, runCommand shell (some command) description s = (.value b, s1) ∧
      (b = true ↔ shell s.execs command = none) ∧
      (b = false ↔ ∃ e, shell s.execs command = some e) ∧
      (shell s.execs command = none →
        s1.trace = s.trace ++
          [.spinnerStart description, .shellCommand command, .spinnerSucceed]) ∧
      (∀ e, shell s.execs command = some e →
        s1.trace = s.trace ++
          [.spinnerStart description, .shellCommand command, .spinnerFail,
           .consoleError [.str ("Failed to execute " ++ command), .caught e]]) := by
  rw [runCommand_apply]
  cases h : shell s.execs (tmpl (some command)) <;>
    simp_all [tmpl, stepOk, stepFailed]

/-! ## The pipeline -/

/-- For the two offered project types the three planned commands are distinct. -/
theorem plan_commands_distinct (repoName projectType : String)
    (hpt : projectType = "hardhat" ∨ projectType = "foundry") :
    tmpl (plan repoName projectType).installFrontendDepsCommand ≠
      tmpl (plan repoName projectType).gitCheckoutCommand ∧
    tmpl (plan repoName projectType).installBackendDepsCommand ≠
      tmpl (plan repoName projectType).gitCheckoutCommand ∧
    tmpl (plan repoName projectType).installBackendDepsCommand ≠
      tmpl (plan repoName projectType).installFrontendDepsCommand := by
  have hfh : ¬ ("foundry" = "hardhat") := by decide
  rcases hpt with rfl | rfl
  · simp only [plan, if_true, tmpl]
    refine ⟨?_, ?_, ?_⟩ <;> intro h <;> have h2 := congrArg String.data h <;>
      simp [String.data_append] at h2
  · simp only [plan, if_true, hfh, if_false, tmpl]
    refine ⟨?_, ?_, ?_⟩ <;> intro h <;> have h2 := congrArg String.data h <;>
      simp [String.data_append] at h2

/-- C5: for every `repoName`, offered project type and `authorName`, if the
clone command fails then it is the only shell command started (neither install
command runs), nothing is printed with `console.log`, and the process exits
with code -1. -/
theorem clone_failure_aborts (shell : Shell) (repoName projectType authorName : String)
    (hpt : projectType = "hardhat" ∨ projectType = "foundry")
    (hfail : shell 0 (tmpl (plan repoName projectType).gitCheckoutCommand) ≠ none) :
    executed (onAnswers shell repoName
        { projectType := projectType, authorName := authorName }).run.trace =
      [tmpl (plan repoName projectType).gitCheckoutCommand] ∧
    Effect.shellCommand (tmpl (plan repoName projectType).installFrontendDepsCommand) ∉
      (onAnswers shell repoName
        { projectType := projectType, authorName := authorName }).run.trace ∧
    Effect.shellCommand (tmpl (plan repoName projectType).installBackendDepsCommand) ∉
      (onAnswers shell repoName
        { projectType := projectType, authorName := authorName }).run.trace ∧
    (∀ args, Effect.consoleLog args ∉
      (onAnswers shell repoName
        { projectType := projectType, authorName := authorName }).run.trace) ∧
    (onAnswers shell repoName
        { projectType := projectType, authorName := authorName }).run.outcome = .exited (-1) ∧
    (onAnswers shell repoName
        { projectType := projectType, authorName := authorName }).run.exitCode = -1 := by
  obtain ⟨h21, h31, _⟩ := plan_commands_distinct repoName projectType hpt
  cases h1 : shell 0 (tmpl (plan repoName projectType).gitCheckoutCommand) with
  | none => exact absurd h1 hfail
  | some e =>
    simp [onAnswers_run, h1, stepFailed, executed, Run.exitCode, h21, h31]

theorem clone_failure_aborts_witness :
    ("hardhat" = "hardhat" ∨ "hardhat" = "foundry") ∧
    shellFailingAt 0 0 (tmpl (plan "my-dapp" "hardhat").gitCheckoutCommand) ≠ none ∧
    (onAnswers (shellFailingAt 0) "my-dapp"
        { projectType := "hardhat", authorName := "Ada" }).run.outcome = .exited (-1) :=
  ⟨by decide, by decide,
    (clone_failure_aborts (shellFailingAt 0) "my-dapp" "hardhat" "Ada" (by decide)
      (by decide)).2.2.2.2.1⟩

/-- C6: for every `repoName`, offered project type and `authorName`, if the
clone command succeeds and the frontend install fails then exactly those two
commands are started (the backend command does not run), nothing is printed
with `console.log`, and the process exits with code -1. -/
theorem frontend_failure_aborts (shell : Shell) (repoName projectType authorName : String)
    (hpt : projectType = "hardhat" ∨ projectType = "foundry")
    (hclone : shell 0 (tmpl (plan repoName projectType).gitCheckoutCommand) = none)
    (hfail : shell 1 (tmpl (plan repoName projectType).installFrontendDepsCommand) ≠ none) :
    executed (onAnswers shell repoName
        { projectType := projectType, authorName := authorName }).run.trace =
      [tmpl (plan repoName projectType).gitCheckoutCommand,
       tmpl (plan repoName projectType).installFrontendDepsCommand] ∧
    Effect.shellCommand (tmpl (plan repoName projectType).installBackendDepsCommand) ∉
      (onAnswers shell repoName
        { projectType := projectType, authorName := authorName }).run.trace ∧
    (∀ args, Effect.consoleLog args ∉
      (onAnswers shell repoName
        { projectType := projectType, authorName := authorName }).run.trace) ∧
    (onAnswers shell repoName
        { projectType := projectType, authorName := authorName }).run.outcome = .exited (-1) ∧
    (onAnswers shell repoName
        { projectType := projectType, authorName := authorName }).run.exitCode = -1 := by
  obtain ⟨_, h31, h32⟩ := plan_commands_distinct repoName projectType hpt
  cases h2 : shell 1 (tmpl (plan repoName projectType).installFrontendDepsCommand) with
  | none => exact absurd h2 hfail
  | some e =>
    simp [onAnswers_run, hclone, h2, stepOk, stepFailed, executed, Run.exitCode, h31, h32]

theorem frontend_failure_aborts_witness :
    ("foundry" = "hardhat" ∨ "foundry" = "foundry") ∧
    shellFailingAt 1 0 (tmpl (plan "my-dapp" "foundry").gitCheckoutCommand) = none ∧
    shellFailingAt 1 1 (tmpl (plan "my-dapp" "foundry").installFrontendDepsCommand) ≠ none ∧
    (onAnswers (shellFailingAt 1) "my-dapp"
        { projectType := "foundry", authorName := "Ada" }).run.outcome = .exited (-1) :=
  ⟨by decide, by decide, by decide,
    (frontend_failure_aborts (shellFailingAt 1) "my-dapp" "foundry" "Ada" (by decide)
      (by decide) (by decide)).2.2.2.1⟩

/-- C10: for every `repoName`, `projectType`, `authorName` and every outcome of
the three commands, the commands started are exactly clone, frontend install,
backend install up to and including the first that fails; when all three
succeed the run ends normally and its `console.log` output is exactly the
completion report, printed after the last command; otherwise nothing is
printed with `console.log` and the process exits with code -1. -/
theorem pipeline_runs_through_first_failure (shell : Shell)
    (repoName projectType authorName : String) :
    executed (onAnswers shell repoName
        { projectType := projectType, authorName := authorName }).run.trace =
      throughFirstFailure
        [ (tmpl (plan repoName projectType).gitCheckoutCommand,
            (shell 0 (tmpl (plan repoName projectType).gitCheckoutCommand)).isNone),
          (tmpl (plan repoName projectType).installFrontendDepsCommand,
            (shell 1 (tmpl (plan repoName projectType).installFrontendDepsCommand)).isNone),
          (tmpl (plan repoName projectType).installBackendDepsCommand,
            (shell 2 (tmpl (plan repoName projectType).installBackendDepsCommand)).isNone) ] ∧
    ((shell 0 (tmpl (plan repoName projectType).gitCheckoutCommand) = none ∧
      shell 1 (tmpl (plan repoName projectType).installFrontendDepsCommand) = none ∧
      shell 2 (tmpl (plan repoName projectType).installBackendDepsCommand) = none) →
      (onAnswers shell repoName
        { projectType := projectType, authorName := authorName }).run.outcome = .value () ∧
      (onAnswers shell repoName
        { projectType := projectType, authorName := authorName }).run.exitCode = 0 ∧
      ∃ steps, logged steps = [] ∧
        (onAnswers shell repoName
          { projectType := projectType, authorName := authorName }).run.trace =
          steps ++ completionReport repoName projectType authorName) ∧
    (¬ (shell 0 (tmpl (plan repoName projectType).gitCheckoutCommand) = none ∧
      shell 1 (tmpl (plan repoName projectType).installFrontendDepsCommand) = none ∧
      shell 2 (tmpl (plan repoName projectType).installBackendDepsCommand) = none) →
      (onAnswers shell repoName
        { projectType := projectType, authorName := authorName }).run.outcome = .exited (-1) ∧
      (onAnswers shell repoName
        { projectType := projectType, authorName := authorName }).run.exitCode = -1 ∧
      ∀ args, Effect.consoleLog args ∉
        (onAnswers shell repoName
          { projectType := projectType, authorName := authorName }).run.trace) := by
  cases h1 : shell 0 (tmpl (plan repoName projectType).gitCheckoutCommand) with
  | some e1 =>
    simp [onAnswers_run, h1, stepFailed, executed, throughFirstFailure, Run.exitCode]
  | none =>
    cases h2 : shell 1 (tmpl (plan repoName projectType).installFrontendDepsCommand) with
    | some e2 =>
      simp [onAnswers_run, h1, h2, stepOk, stepFailed, executed, throughFirstFailure,
        Run.exitCode]
    | none =>
      cases h3 : shell 2 (tmpl (plan repoName projectType).installBackendDepsCommand) with
      | some e3 =>
        simp [onAnswers_run, h1, h2, h3, stepOk, stepFailed, executed, throughFirstFailure,
          Run.exitCode]
      | none =>
        simp only [onAnswers_run, h1, h2, h3, executed_append, executed_completionReport,
          throughFirstFailure, Option.isNone_none, Run.exitCode, and_self, true_implies,
          not_true_eq_false, false_implies, and_true]
        refine ⟨by simp [stepOk, executed], ?_⟩
        exact ⟨trivial, trivial, _, by simp [stepOk, logged_append, logged], rfl⟩

/-! ## The completion reporter -/

/-- On a run in which the three commands succeed, `console.log` is called
exactly by the completion report. -/
theorem consoleLog_mem_of_success (shell : Shell) (repoName projectType authorName : String)
    (h1 : shell 0 (tmpl (plan repoName projectType).gitCheckoutCommand) = none)
    (h2 : shell 1 (tmpl (plan repoName projectType).installFrontendDepsCommand) = none)
    (h3 : shell 2 (tmpl (plan repoName projectType).installBackendDepsCommand) = none)
    (args : List Arg) :
    Effect.consoleLog args ∈ (onAnswers shell repoName
        { projectType := projectType, authorName := authorName }).run.trace ↔
      Effect.consoleLog args ∈ completionReport repoName projectType authorName := by
  simp [onAnswers_run, h1, h2, h3, stepOk]

theorem logged_of_success (shell : Shell) (repoName projectType authorName : String)
    (h1 : shell 0 (tmpl (plan repoName projectType).gitCheckoutCommand) = none)
    (h2 : shell 1 (tmpl (plan repoName projectType).installFrontendDepsCommand) = none)
    (h3 : shell 2 (tmpl (plan repoName projectType).installBackendDepsCommand) = none) :
    logged (onAnswers shell repoName
        { projectType := projectType, authorName := authorName }).run.trace =
      logged (completionReport repoName projectType authorName) := by
  simp [onAnswers_run, h1, h2, h3, stepOk, logged_append, logged]

/-- C8: on every run in which the three commands succeed, a non-empty
`authorName` gives the green line `Thank you, <authorName>, for using
create-kii-dapp` with that exact name inside it, and an empty `authorName`
gives no printed text at all that begins with `Thank you`. -/
theorem thank_you_line (shell : Shell) (repoName projectType authorName : String)
    (h1 : shell 0 (tmpl (plan repoName projectType).gitCheckoutCommand) = none)
    (h2 : shell 1 (tmpl (plan repoName projectType).installFrontendDepsCommand) = none)
    (h3 : shell 2 (tmpl (plan repoName projectType).installBackendDepsCommand) = none) :
    (authorName ≠ "" →
      Effect.consoleLog
          [.chalk .green ("Thank you, " ++ authorName ++ ", for using create-kii-dapp 🙌")] ∈
        (onAnswers shell repoName
          { projectType := projectType, authorName := authorName }).run.trace ∧
      authorName.data <:+:
        ("Thank you, " ++ authorName ++ ", for using create-kii-dapp 🙌").data) ∧
    (authorName = "" →
      ∀ args, Effect.consoleLog args ∈
          (onAnswers shell repoName
            { projectType := projectType, authorName := authorName }).run.trace →
        ∀ a ∈ args, ¬ ("Thank you".data <+: a.text.data)) := by
  constructor
  · intro hne
    refine ⟨?_, "Thank you, ".data, ", for using create-kii-dapp 🙌".data, ?_⟩
    · rw [consoleLog_mem_of_success shell repoName projectType authorName h1 h2 h3]
      simp [completionReport, banner, truthy, hne]
    · simp [String.data_append]
  · intro he args hmem
    rw [consoleLog_mem_of_success shell repoName projectType authorName h1 h2 h3] at hmem
    subst he
    have key : ∀ e ∈ completionReport repoName projectType "", ∀ args,
        e = Effect.consoleLog args → ∀ a ∈ args, ¬ ("Thank you".data <+: a.text.data) := by
      simp only [completionReport, banner, toolchainBlock, frontendBlock, truthy]
      split_ifs <;> simp_all [Arg.text, String.data_append]
    exact key _ hmem args rfl

theorem thank_you_line_witness :
    shellAllOk 0 (tmpl (plan "my-dapp" "hardhat").gitCheckoutCommand) = none ∧
    shellAllOk 1 (tmpl (plan "my-dapp" "hardhat").installFrontendDepsCommand) = none ∧
    shellAllOk 2 (tmpl (plan "my-dapp" "hardhat").installBackendDepsCommand) = none ∧
    "Ada" ≠ "" ∧
    Effect.consoleLog [.chalk .green ("Thank you, " ++ "Ada" ++ ", for using create-kii-dapp 🙌")] ∈
      (onAnswers shellAllOk "my-dapp" { projectType := "hardhat", authorName := "Ada" }).run.trace :=
  ⟨rfl, rfl, rfl, by decide,
    ((thank_you_line shellAllOk "my-dapp" "hardhat" "Ada" rfl rfl rfl).1 (by decide)).1⟩

/-- C9: on every run in which the three commands succeed, the `console.log`
output has, for `hardhat`, the lines `npx hardhat compile`, `npx hardhat test`
and `npx hardhat run scripts/deploy.ts --network kiichain` and no printed text
beginning with a `forge` command; for `foundry`, the lines `forge compile`,
`forge test` and the `forge script` deploy line and no printed text beginning
with an `npx hardhat` command; in both cases directly followed by the frontend
block ending in `cd <repoName> && cd frontend` and `npm run dev`. -/
theorem toolchain_block_then_frontend (shell : Shell) (repoName projectType authorName : String)
    (h1 : shell 0 (tmpl (plan repoName projectType).gitCheckoutCommand) = none)
    (h2 : shell 1 (tmpl (plan repoName projectType).installFrontendDepsCommand) = none)
    (h3 : shell 2 (tmpl (plan repoName projectType).installBackendDepsCommand) = none) :
    (projectType = "hardhat" →
      (∃ before after,
        logged (onAnswers shell repoName
          { projectType := projectType, authorName := authorName }).run.trace =
          before ++
          [ [.chalk .cyan "\t npx hardhat compile"],
            [.chalk .cyan "\t npx hardhat test"],
            [.chalk .cyan "\t npx hardhat run scripts/deploy.ts --network kiichain"],
            [.chalk .cyan
              "\nTo start the frontend development server, run the following commands:"],
            [.chalk .cyan ("cd " ++ repoName ++ " && cd frontend")],
            [.chalk .cyan "npm run dev"] ] ++ after) ∧
      ∀ args ∈ logged (onAnswers shell repoName
          { projectType := projectType, authorName := authorName }).run.trace,
        ∀ a ∈ args, ¬ ("\t forge".data <+: a.text.data)) ∧
    (projectType = "foundry" →
      (∃ before after,
        logged (onAnswers shell repoName
          { projectType := projectType, authorName := authorName }).run.trace =
          before ++
          [ [.chalk .cyan "\t forge compile"],
            [.chalk .cyan "\t forge test"],
            [.chalk .cyan
              "\t forge script script/DeployGreeter.s.sol --broadcast --rpc-url https://a.sentry.testnet.kiivalidator.com:8645/ --gas-limit 30000000 --with-gas-price 5gwei --skip-simulation"],
            [.chalk .cyan
              "\nTo start the frontend development server, run the following commands:"],
            [.chalk .cyan ("cd " ++ repoName ++ " && cd frontend")],
            [.chalk .cyan "npm run dev"] ] ++ after) ∧
      ∀ args ∈ logged (onAnswers shell repoName
          { projectType := projectType, authorName := authorName }).run.trace,
        ∀ a ∈ args, ¬ ("\t npx hardhat".data <+: a.text.data)) := by
  rw [logged_of_success shell repoName projectType authorName h1 h2 h3]
  have hfh : ¬ ("foundry" = "hardhat") := by decide
  constructor
  · intro hpt
    subst hpt
    constructor
    · refine ⟨logged (banner authorName) ++
          [ [.chalk .cyan "\nTo set up the backend, run the following commands:"],
            [.chalk .cyan ("cd " ++ repoName ++ " && cd backend")],
            [.chalk .yellow
              "\n⚠️ Please create a .env file in the backend directory and paste your Metamask private key:"],
            [.chalk .cyan "ACCOUNT_PRIVATE_KEY=", .str "<YOUR_KEY>"] ],
          [ [.str "\nHappy Building on KiiChain!"],
            [.chalk .yellow "\n-----------------------"] ], ?_⟩
      simp [completionReport, toolchainBlock, frontendBlock, logged_append, logged]
    · simp only [completionReport, banner, toolchainBlock, frontendBlock, truthy, if_true]
      split_ifs <;> simp [logged, Arg.text, String.data_append]
  · intro hpt
    subst hpt
    constructor
    · refine ⟨logged (banner authorName) ++
          [ [.chalk .cyan "\nTo set up the backend, run the following commands:"],
            [.chalk .cyan ("cd " ++ repoName ++ " && cd backend")],
            [.chalk .yellow
              "\n⚠️ Please create a .env file in the backend directory and paste your Metamask private key:"],
            [.chalk .cyan "ACCOUNT_PRIVATE_KEY=", .str "<YOUR_KEY>"] ],
          [ [.str "\nHappy Building on KiiChain!"],
            [.chalk .yellow "\n-----------------------"] ], ?_⟩
      simp [completionReport, toolchainBlock, frontendBlock, logged_append, logged, hfh]
    · simp only [completionReport, banner, toolchainBlock, frontendBlock, truthy, if_true,
        hfh, if_false]
      split_ifs <;> simp [logged, Arg.text, String.data_append]

theorem toolchain_block_then_frontend_witness :
    shellAllOk 0 (tmpl (plan "my-dapp" "hardhat").gitCheckoutCommand) = none ∧
    shellAllOk 1 (tmpl (plan "my-dapp" "hardhat").installFrontendDepsCommand) = none ∧
    shellAllOk 2 (tmpl (plan "my-dapp" "hardhat").installBackendDepsCommand) = none ∧
    ∀ args ∈ logged (onAnswers shellAllOk "my-dapp"
        { projectType := "hardhat", authorName := "" }).run.trace,
      ∀ a ∈ args, ¬ ("\t forge".data <+: a.text.data) :=
  ⟨rfl, rfl, rfl,
    ((toolchain_block_then_frontend shellAllOk "my-dapp" "hardhat" "" rfl rfl rfl).1 rfl).2⟩

end CreateKiiDapp
